import Mathlib

/-!
Shallow embedding of the judgeflow evaluation pipeline
(src/src/judgeflow/runner.py and src/src/judgeflow/metrics.py).

Python strings are `String`/`List Char`, floats are `ℚ`, `None`-able values
are `Option`, raised exceptions are `Except`.  The three inline regular
expressions of `_apply_metric` and the score-parser dispatch of
`MetricSpec.parse_score` are embedded as executable matchers that follow
the Python `re` semantics (leftmost search, greedy quantifiers with
backtracking, ASCII word boundaries) for exactly those patterns.
-/

deriving instance DecidableEq for Except

namespace JudgeFlow

/-- Digit class of the regex patterns (`[0-9]`, `\d`). -/
def isDig (c : Char) : Bool :=
  c = '0' || c = '1' || c = '2' || c = '3' || c = '4' ||
  c = '5' || c = '6' || c = '7' || c = '8' || c = '9'

/-- Word character for the regex `\b` metacharacter (ASCII `[A-Za-z0-9_]`). -/
def isWordChar (c : Char) : Bool :=
  c.isAlpha || isDig c || c = '_'

/-- ASCII whitespace recognized by the regex class `\s`. -/
def isPySpace (c : Char) : Bool :=
  c = ' ' || c = '\t' || c = '\n' || c = '\r' || c = Char.ofNat 11 || c = Char.ofNat 12

/-- Numeric value of a digit character. -/
def digitVal (c : Char) : Nat := c.toNat - 48

/-- Value of a digit string read in base 10. -/
def digitsToNat : List Char → Nat
  | [] => 0
  | c :: t => digitVal c * 10 ^ t.length + digitsToNat t

/-- Value of `<ip>.<fs>` as a rational: integer part plus fractional part. -/
def decVal (ip fs : List Char) : ℚ :=
  (digitsToNat ip : ℚ) + (digitsToNat fs : ℚ) / 10 ^ fs.length

/-- Unsigned part of the model of Python `float()`: digit forms
`digits`, `digits.digits`, `digits.`, `.digits`.  (Exponents, infinities and
surrounding whitespace never occur in any string this development passes to
`float()`, so they are left out of the model.) -/
def pyFloatCore (g : List Char) : Option ℚ :=
  let ip := g.takeWhile isDig
  match g.drop ip.length with
  | [] => if ip.isEmpty then none else some ((digitsToNat ip : ℚ))
  | '.' :: fs =>
    if fs.all isDig && !(ip.isEmpty && fs.isEmpty) then some (decVal ip fs) else none
  | _ => none

/-- Model of Python `float()` on a string: optional sign then `pyFloatCore`;
`none` models a raised `ValueError`. -/
def pyFloat (g : List Char) : Option ℚ :=
  match g with
  | [] => none
  | c :: t =>
    if c = '-' then (pyFloatCore t).map (fun v => -v)
    else if c = '+' then pyFloatCore t
    else pyFloatCore (c :: t)

/-- Group matcher for `[0-9]+(?:\.[0-9]+)?` anchored at the current
position: a non-empty greedy digit run, then an optional greedy fractional
part.  Nothing follows the group in the patterns that use this, so the
greedy munches never backtrack. -/
def numTail (cs : List Char) : Option (List Char) :=
  let ds := cs.takeWhile isDig
  if ds.isEmpty then none
  else
    match cs.drop ds.length with
    | '.' :: t =>
      let fs := t.takeWhile isDig
      if fs.isEmpty then some ds else some (ds ++ '.' :: fs)
    | _ => some ds

/-! Confidence regex `([0-9]\x7b1,3\x7d(?:\.[0-9]+)?)` — runner.py line 100. -/

/-- Match attempt of the confidence pattern at one position: one to three
digits (greedy) then an optional fractional part (greedy); returns the text
of capturing group 1. -/
def confMatchAt (cs : List Char) : Option (List Char) :=
  match cs with
  | [] => none
  | c :: _ =>
    if isDig c then
      let ds := (cs.takeWhile isDig).take 3
      match cs.drop ds.length with
      | '.' :: t =>
        let fs := t.takeWhile isDig
        if fs.isEmpty then some ds else some (ds ++ '.' :: fs)
      | _ => some ds
    else none

/-- Leftmost search of the confidence pattern (Python `re.search`). -/
def confSearch : List Char → Option (List Char)
  | [] => none
  | c :: t =>
    match confMatchAt (c :: t) with
    | some g => some g
    | none => confSearch t

/-- Confidence extraction of runner.py lines 100-106: first 1-3 digit run
with optional fraction, converted with `float()` and clamped to [0, 100];
`none` when there is no match. -/
def extract_confidence (text : String) : Option ℚ :=
  match confSearch text.toList with
  | none => none
  | some g =>
    match pyFloat g with
    | none => none
    | some v => some (if v > 100 then (100 : ℚ) else if v < 0 then 0 else v)

/-! Revision stage-1 regex `Revised score[:\s]*([0-9]+(?:\.[0-9]+)?)` with
`re.IGNORECASE` — runner.py line 71. -/

/-- Case-insensitive character comparison (the `re.IGNORECASE` flag). -/
def lowerEq (a b : Char) : Bool := a.toLower = b.toLower

/-- Strip a leading literal case-insensitively, returning the rest. -/
def stripCI : List Char → List Char → Option (List Char)
  | [], rest => some rest
  | _ :: _, [] => none
  | p :: ps, c :: cs => if lowerEq p c then stripCI ps cs else none

/-- Match attempt of the stage-1 revision pattern at one position: the
literal `Revised score` (case-insensitive), then any run of `:` and
whitespace, then digits with an optional fraction (group 1). -/
def s1MatchAt (cs : List Char) : Option (List Char) :=
  match stripCI "Revised score".toList cs with
  | none => none
  | some rest => numTail (rest.dropWhile (fun c => c = ':' || isPySpace c))

/-- Leftmost search of the stage-1 revision pattern. -/
def s1Search : List Char → Option (List Char)
  | [] => none
  | c :: t =>
    match s1MatchAt (c :: t) with
    | some g => some g
    | none => s1Search t

/-! Revision stage-2 regex `\b([0-9](?:\.[0-9]+)?|10(?:\.0+)?)\b` —
runner.py line 79. -/

/-- Right-hand `\b` test: match end is at end of text or before a
non-word character (the last matched character is always a digit). -/
def boundaryAfter (rest : List Char) : Bool :=
  match rest with
  | [] => true
  | c :: _ => !isWordChar c

/-- Backtracking over the greedy `\.[0-9]+` of stage-2 alternative 1:
`rfs` holds the still-included fraction digits in reverse; shrink from the
maximal munch until the trailing `\b` holds. -/
def fracBt (d : Char) (rfs after : List Char) : Option (List Char) :=
  match rfs with
  | [] => none
  | x :: rest =>
    if boundaryAfter after then some (d :: '.' :: (x :: rest).reverse)
    else fracBt d rest (x :: after)

/-- Backtracking over the greedy `\.0+` of stage-2 alternative 2. -/
def zeroBt (rzs after : List Char) : Option (List Char) :=
  match rzs with
  | [] => none
  | x :: rest =>
    if boundaryAfter after then some ('1' :: '0' :: '.' :: (x :: rest).reverse)
    else zeroBt rest (x :: after)

/-- The optional `(?:\.[0-9]+)?` of stage-2 alternative 1, attempted on the
text after the leading digit: a dot, then the greedy digit munch handed to
the backtracker. -/
def fracOpt (d : Char) (rest : List Char) : Option (List Char) :=
  match rest with
  | c :: t =>
    if c = '.' then
      let fs := t.takeWhile isDig
      fracBt d fs.reverse (t.drop fs.length)
    else none
  | [] => none

/-- The optional `(?:\.0+)?` of stage-2 alternative 2. -/
def zeroOpt (rest : List Char) : Option (List Char) :=
  match rest with
  | c :: t =>
    if c = '.' then
      let zs := t.takeWhile (fun x => x == '0')
      zeroBt zs.reverse (t.drop zs.length)
    else none
  | [] => none

/-- Stage-2 alternative 1: `[0-9](?:\.[0-9]+)?` then the trailing `\b`;
the optional fraction is tried greedily first, then dropped. -/
def s2Alt1 (cs : List Char) : Option (List Char) :=
  match cs with
  | [] => none
  | d :: rest =>
    if isDig d then
      match fracOpt d rest with
      | some g => some g
      | none => if boundaryAfter rest then some [d] else none
    else none

/-- Stage-2 alternative 2: `10(?:\.0+)?` then the trailing `\b`. -/
def s2Alt2 (cs : List Char) : Option (List Char) :=
  match cs with
  | a :: b :: rest =>
    if a = '1' && b = '0' then
      match zeroOpt rest with
      | some g => some g
      | none => if boundaryAfter rest then some ['1', '0'] else none
    else none
  | _ => none

/-- Match attempt of the full stage-2 pattern at one position (the leading
`\b` is checked by the caller): alternative 1 first, then alternative 2. -/
def s2MatchAt (cs : List Char) : Option (List Char) :=
  match s2Alt1 cs with
  | some g => some g
  | none => s2Alt2 cs

/-- Leftmost search of the stage-2 pattern; `prevWord` tracks whether the
character left of the current position is a word character (for the leading
`\b` — both alternatives start with a digit, itself a word character). -/
def s2SearchFrom : Bool → List Char → Option (List Char)
  | _, [] => none
  | prevWord, c :: t =>
    match (if prevWord then none else s2MatchAt (c :: t)) with
    | some g => some g
    | none => s2SearchFrom (isWordChar c) t

/-- Leftmost search of the stage-2 pattern over a whole text. -/
def s2Search (cs : List Char) : Option (List Char) := s2SearchFrom false cs

/-- Revised-score extraction of runner.py lines 68-88: stage 1
(labeled `Revised score`) first; when it is absent or its group fails
`float()`, fall back to stage 2 (first standalone number 0-10). -/
def extract_revision (text : String) : Option ℚ :=
  let s1v :=
    match s1Search text.toList with
    | some g => pyFloat g
    | none => none
  match s1v with
  | some v => some v
  | none =>
    match s2Search text.toList with
    | some g => pyFloat g
    | none => none

/-! Character-level string primitives (Python indexes strings by character,
so `startswith`, slicing, `len` and `endswith` are embedded over the
character list of a string). -/

/-- Test whether the first list starts the second. -/
def listIsPre : List Char → List Char → Bool
  | [], _ => true
  | _ :: _, [] => false
  | p :: ps, c :: cs => p = c && listIsPre ps cs

/-- Python `s.startswith(p)`. -/
def strStartsWith (s p : String) : Bool := listIsPre p.toList s.toList

/-- Python `s[n:]`. -/
def strDrop (s : String) (n : Nat) : String := ⟨s.toList.drop n⟩

/-- Python `s.endswith(p)`. -/
def strEndsWith (s p : String) : Bool := listIsPre p.toList.reverse s.toList.reverse

/-- Python `len(s)`. -/
def strLen (s : String) : Nat := s.toList.length

/-- Python `s[:n]`. -/
def strTake (s : String) (n : Nat) : String := ⟨s.toList.take n⟩

/-! Score parser — metrics.py lines 16-27 (`MetricSpec.parse_score`). -/

/-- Outcome classes of the `ValueError`s raised by `parse_score`:
unrecognized directive form, no regex match, non-convertible group. -/
inductive ParseErr
  | unsupported
  | noMatch
  | badFloat
deriving DecidableEq

/-- A regex match object as `parse_score` consumes it: the matched text and
the text of capturing group 1 (`none` models a missing group 1, whose
`float()` raises and is caught the same way as a bad literal). -/
structure RMatch where
  group0 : String
  group1 : Option String
deriving DecidableEq

/-- The external `re.search` engine: pattern and text to optional match.
`parse_score` is parameterized over it because the pattern is configuration
data; a concrete engine for the numeric pattern used by the registry's
metrics is `numSearch` below. -/
abbrev SearchFn := String → String → Option RMatch

/-- metrics.py lines 16-27: dispatch on the `regex:` directive form, search,
take the first match's group 1, convert with `float()`; each failure raises
(`ValueError`). -/
def parse_score (search : SearchFn) (parser : String) (text : String) : Except ParseErr ℚ :=
  if strStartsWith parser "regex:" then
    match search (strDrop parser 6) text with
    | some m =>
      match m.group1 with
      | some g =>
        match pyFloat g.toList with
        | some v => .ok v
        | none => .error .badFloat
      | none => .error .badFloat
    | none => .error .noMatch
  else .error .unsupported

/-! Prompt templates and rows.  A template is the parsed form of a Python
format string: literal runs and named placeholders; `str.format(**row)`
substitutes row fields and raises `KeyError` on the first missing name. -/

/-- One piece of a format string. -/
inductive Tpart
  | lit (s : String)
  | fld (name : String)
deriving DecidableEq

/-- A dataset row: an ordered mapping from field name to value. -/
abbrev Row := List (String × String)

/-- First-match association lookup (dict access with override-by-cons). -/
def alookup : List (String × String) → String → Option String
  | [], _ => none
  | (k, v) :: t, key => if k = key then some v else alookup t key

/-- Model of `template.format(**row)`: substitute fields left to right,
failing with the first missing field name (`KeyError`). -/
def render : List Tpart → Row → Except String String
  | [], _ => .ok ""
  | .lit s :: t, row =>
    match render t row with
    | .ok r => .ok (s ++ r)
    | .error e => .error e
  | .fld n :: t, row =>
    match alookup row n with
    | some v =>
      match render t row with
      | .ok r => .ok (v ++ r)
      | .error e => .error e
    | none => .error n

/-- metrics.py lines 7-14: one metric definition, fields in source order. -/
structure MetricSpec where
  name : String
  description : String
  prompt_template : List Tpart
  parser : String
  rai_category : String
  reflection_prompt : List Tpart
  confidence_prompt : List Tpart
deriving DecidableEq

/-! The orchestrator — runner.py `_apply_metric` (lines 41-132),
`evaluate_row` (33-39), `evaluate_dataset` (17-31). -/

/-- Transport-level error raised by the llm `chat` adapter after its own
retries are exhausted (spec taxonomy `TransientError`/`FatalError`). -/
inductive ChatErr
  | transient
  | fatal
deriving DecidableEq

/-- An exception escaping `_apply_metric`: a `KeyError` from
`str.format` (the field name), or an uncaught chat transport error. -/
inductive PErr
  | template (field : String)
  | chat (e : ChatErr)
deriving DecidableEq

/-- The dict `_apply_metric` returns (runner.py lines 123-132): exactly
these eight entries — note there is no timestamp field. -/
structure ScoreDict where
  row_id : String
  metric : String
  score : ℚ
  revised_score : Option ℚ
  revision_delta : Option ℚ
  critique : Option String
  self_conf : Option ℚ
  agree_conf : Option ℚ
deriving DecidableEq

/-- The chat service as `_apply_metric` observes it: the outcome of its
n-th chat call (calls are numbered 0 score, 1 reflection, 2 confidence,
3-5 resamples) as a function of the prompt sent. -/
abbrev ChatFn := Nat → String → Except ChatErr String

/-- Model of `str(x)` applied to the injected score when a template
placeholder consumes it. -/
def qToStr (q : ℚ) : String := toString q

/-- runner.py lines 63-66: truncate the reflection prompt to a character
budget by discarding trailing characters. -/
def pyTrunc (n : Nat) (s : String) : String :=
  if strLen s > n then strTake s n else s

/-- runner.py lines 49-54: score-stage parse with the fail-soft default —
on `ValueError` the score becomes `0.0`. -/
def scoreStageVal (search : SearchFn) (parser : String) (response : String) : ℚ :=
  match parse_score search parser response with
  | .ok v => v
  | .error _ => 0

/-- One resample attempt of runner.py lines 112-118: a chat call on the
original prompt and a parse; any exception drops the sample. -/
def sampleAt (search : SearchFn) (parser : String) (chatO : ChatFn) (prompt : String) (i : Nat) :
    Option ℚ :=
  match chatO i prompt with
  | .error _ => none
  | .ok resp =>
    match parse_score search parser resp with
    | .ok v => some v
    | .error _ => none

/-- The kept samples of the agreement stage: the three resample calls
(call indices 3, 4, 5), failures dropped. -/
def keptResamples (search : SearchFn) (parser : String) (chatO : ChatFn) (prompt : String) :
    List ℚ :=
  [3, 4, 5].filterMap (sampleAt search parser chatO prompt)

/-- runner.py lines 119-121: count kept samples within tolerance 1.0 of the
baseline, divide by the fixed sample size 3; `None` when no sample was kept. -/
def agreeStage (kept : List ℚ) (baseline : ℚ) : Option ℚ :=
  let agreeCount := (kept.filter (fun s => |s - baseline| ≤ 1)).length
  if kept.isEmpty then none else some ((agreeCount : ℚ) / 3 * 100)

/-- runner.py `_apply_metric` (lines 41-132), stage by stage in source
order.  Uncaught exceptions (`KeyError` from the three `format` calls,
transport errors from the score-stage and reflection-stage chat calls)
surface as `.error`; the confidence stage and each resample catch their own
exceptions. -/
def apply_metric (search : SearchFn) (chatO : ChatFn) (row : Row) (m : MetricSpec) :
    Except PErr ScoreDict :=
  match render m.prompt_template row with
  | .error f => .error (.template f)
  | .ok prompt =>
    match chatO 0 prompt with
    | .error e => .error (.chat e)
    | .ok response =>
      let score_value := scoreStageVal search m.parser response
      match render m.reflection_prompt (("score", qToStr score_value) :: row) with
      | .error f => .error (.template f)
      | .ok rp =>
        match chatO 1 (pyTrunc 1024 rp) with
        | .error e => .error (.chat e)
        | .ok reflection_response =>
          let revised_score := extract_revision reflection_response
          let revision_delta := revised_score.map (fun v => v - score_value)
          match render m.confidence_prompt (("score", qToStr score_value) :: row) with
          | .error f => .error (.template f)
          | .ok cp =>
            let self_conf :=
              match chatO 2 cp with
              | .error _ => none
              | .ok conf_response => extract_confidence conf_response
            let agree_conf := agreeStage (keptResamples search m.parser chatO prompt) score_value
            .ok {
              row_id := (alookup row "id").getD "unknown",
              metric := m.name,
              score := score_value,
              revised_score := revised_score,
              revision_delta := revision_delta,
              critique := some reflection_response,
              self_conf := self_conf,
              agree_conf := agree_conf }

/-- A family of chat services, one per metric index within a row. -/
abbrev ChatFam := Nat → ChatFn

/-- Loop body of `evaluate_row` starting at metric index `i`: an exception
from `_apply_metric` propagates, losing the scores of the earlier metrics. -/
def evalRowAux (search : SearchFn) (fam : ChatFam) (row : Row) :
    Nat → List MetricSpec → Except PErr (List ScoreDict)
  | _, [] => .ok []
  | i, m :: ms =>
    match apply_metric search (fam i) row m with
    | .error e => .error e
    | .ok r =>
      match evalRowAux search fam row (i + 1) ms with
      | .error e => .error e
      | .ok rest => .ok (r :: rest)

/-- runner.py lines 33-39: apply every registered metric to one row; no
exception is caught here. -/
def evaluate_row (search : SearchFn) (fam : ChatFam) (row : Row) (metrics : List MetricSpec) :
    Except PErr (List ScoreDict) :=
  evalRowAux search fam row 0 metrics

/-- A family of chat services per row index. -/
abbrev ChatDs := Nat → ChatFam

/-- Loop body of `evaluate_dataset` starting at row index `j`. -/
def evalDsAux (search : SearchFn) (ds : ChatDs) (metrics : List MetricSpec) :
    Nat → List Row → Except PErr (List ScoreDict)
  | _, [] => .ok []
  | j, row :: rows =>
    match evaluate_row search (ds j) row metrics with
    | .error e => .error e
    | .ok rs =>
      match evalDsAux search ds metrics (j + 1) rows with
      | .error e => .error e
      | .ok rest => .ok (rs ++ rest)

/-- runner.py lines 17-31: iterate rows in dataset order (the first three
in quick mode); no exception is caught, so any error loses every score of
the run. -/
def evaluate_dataset (search : SearchFn) (ds : ChatDs) (rows : List Row) (quick : Bool)
    (metrics : List MetricSpec) : Except PErr (List ScoreDict) :=
  evalDsAux search ds metrics 0 (if quick then rows.take 3 else rows)

/-! Registry load — metrics.py lines 29-57 and runner.py lines 13-15. -/

/-- Outcome of opening one registry file: a YAML or validation error, an
empty file (`data` is `None`), or a successfully constructed MetricSpec.
YAML parsing and pydantic validation are external; what matters here is
that construction succeeds for any `parser` string — nothing at load time
inspects the directive's form. -/
inductive FileData
  | malformedFile
  | emptyFile
  | valid (m : MetricSpec)
deriving DecidableEq

/-- One directory entry of the metrics registry. -/
structure RegFile where
  fname : String
  contents : FileData
deriving DecidableEq

/-- metrics.py line 45: the filename filter. -/
def isYamlName (s : String) : Bool := strEndsWith s ".yaml" || strEndsWith s ".yml"

/-- metrics.py lines 29-57 (`load_registry`): keep every successfully
parsed spec from a `.yaml`/`.yml` file, in enumeration order; a failing
file is skipped (its exception is caught inside the loop) and does not
stop the loop. -/
def load_registry (files : List RegFile) : List MetricSpec :=
  files.filterMap (fun f =>
    if isYamlName f.fname then
      match f.contents with
      | .valid m => some m
      | _ => none
    else none)

/-- runner.py lines 12-15: the orchestrator's constructor stores the
loaded registry unfiltered. -/
structure Runner where
  csv_path : String
  metrics : List MetricSpec
deriving DecidableEq

/-- Model of `Runner.__init__`. -/
def runnerInit (csv_path : String) (files : List RegFile) : Runner :=
  ⟨csv_path, load_registry files⟩

/-! The CSV sink — runner.py `_write_scores_to_csv` (lines 134-154). -/

/-- A value stored in a score dict entry. -/
inductive Cell
  | cs (v : String)
  | cq (v : ℚ)
  | coq (v : Option ℚ)
  | cos (v : Option String)
deriving DecidableEq

/-- The dict literal returned by `_apply_metric` (runner.py lines 123-132)
as a key-value list: exactly these eight keys, in source order. -/
def recordToDict (r : ScoreDict) : List (String × Cell) :=
  [("row_id", .cs r.row_id), ("metric", .cs r.metric), ("score", .cq r.score),
   ("revised_score", .coq r.revised_score), ("revision_delta", .coq r.revision_delta),
   ("critique", .cos r.critique), ("self_conf", .coq r.self_conf),
   ("agree_conf", .coq r.agree_conf)]

/-- Python dict subscription: `d[key]`, raising `KeyError key` when absent. -/
def dget : List (String × Cell) → String → Except String Cell
  | [], key => .error key
  | (k, v) :: t, key => if k = key then .ok v else dget t key

/-- Rendering of one cell into its CSV field, with `None` written as the
empty cell (the `x if x is not None else ""` pattern of the writer). -/
def cellStr : Cell → String
  | .cs v => v
  | .cq v => qToStr v
  | .coq v =>
    match v with
    | some q => qToStr q
    | none => ""
  | .cos v =>
    match v with
    | some s => s
    | none => ""

/-- The per-record body of `_write_scores_to_csv` (runner.py lines 143-153):
subscript the nine columns in the fixed header order — including
`score["timestamp"]` — and emit the row.  Any missing key raises. -/
def csv_row_of_score (d : List (String × Cell)) : Except String (List String) := do
  let c0 ← dget d "row_id"
  let c1 ← dget d "metric"
  let c2 ← dget d "score"
  let c3 ← dget d "revised_score"
  let c4 ← dget d "revision_delta"
  let c5 ← dget d "critique"
  let c6 ← dget d "self_conf"
  let c7 ← dget d "agree_conf"
  let c8 ← dget d "timestamp"
  .ok [cellStr c0, cellStr c1, cellStr c2, cellStr c3, cellStr c4,
       cellStr c5, cellStr c6, cellStr c7, cellStr c8]

/-- The writer loop of `_write_scores_to_csv` over the score dicts of a
run (header handling aside): one CSV row per record in order, the first
raised `KeyError` aborting the loop. -/
def write_scores_to_csv : List ScoreDict → Except String (List (List String))
  | [] => .ok []
  | r :: rest =>
    match csv_row_of_score (recordToDict r) with
    | .error e => .error e
    | .ok rowOut =>
      match write_scores_to_csv rest with
      | .error e => .error e
      | .ok rows => .ok (rowOut :: rows)

/-! Concrete test fixtures used by closed witness and counterexample
statements: a real search engine for the registry's numeric pattern, one
metric, one row, and chat-service stubs. -/

/-- The numeric score pattern every registry metric uses. -/
def numPat : String := "(\\d+(\\.\\d+)?)"

/-- Leftmost search of `numPat`: first digit run with an optional
fractional part; group 1 is the whole match. -/
def numMatchList : List Char → Option (List Char)
  | [] => none
  | c :: t =>
    if isDig c then numTail (c :: t)
    else numMatchList t

/-- A concrete `re.search` engine handling exactly `numPat`. -/
def numSearch : SearchFn := fun pattern text =>
  if pattern = numPat then
    match numMatchList text.toList with
    | some g => some ⟨⟨g⟩, some ⟨g⟩⟩
    | none => none
  else none

/-- A registry metric like the repository's quality metrics. -/
def mT : MetricSpec :=
  { name := "quality",
    description := "test metric",
    prompt_template := [.lit "Rate this answer: ", .fld "answer"],
    parser := "regex:" ++ numPat,
    rai_category := "none",
    reflection_prompt := [.lit "The score was ", .fld "score", .lit ". Critique it."],
    confidence_prompt := [.lit "How confident are you in ", .fld "score", .lit "?"] }

/-- A metric whose prompt template needs a field no row provides. -/
def mBad : MetricSpec :=
  { mT with name := "bad", prompt_template := [.fld "missing_field"] }

/-- A spec whose parser directive has an unsupported form. -/
def badParserSpec : MetricSpec :=
  { mT with name := "magic_metric", parser := "magic" }

/-- A dataset row with the usual fields. -/
def rowT : Row := [("id", "r1"), ("question", "Q"), ("answer", "A")]

/-- Stub judge responses per call index: a parseable score, a labeled
revision, a confidence report, and three parseable resamples. -/
def okResp (i : Nat) : String :=
  match i with
  | 0 => "Score: 8"
  | 1 => "Revised score: 9, because it improved"
  | 2 => "90% confident"
  | 3 => "8"
  | 4 => "8"
  | _ => "9"

/-- A chat service whose every call succeeds. -/
def okC : ChatFn := fun i _ => .ok (okResp i)

/-- A chat service failing (after its retries) exactly at call `k`. -/
def failAtC (k : Nat) : ChatFn := fun i p => if i = k then .error .transient else okC i p

/-- A chat service whose three resample calls all fail. -/
def resamplesFailC : ChatFn := fun i p => if 3 ≤ i then .error .transient else okC i p

/-- A chat service whose score response has no parseable number. -/
def parseFailC : ChatFn := fun i p => if i = 0 then .ok "no numeric value" else okC i p

/-- The record `apply_metric` produces from `okC` on `rowT` and `mT`. -/
def rT : ScoreDict :=
  { row_id := "r1", metric := "quality", score := 8,
    revised_score := some 9, revision_delta := some 1,
    critique := some "Revised score: 9, because it improved",
    self_conf := some 90, agree_conf := some 100 }

/-! Helper lemmas about digits and numeric groups. -/

/-- A character satisfying the digit class is one of the ten digits. -/
theorem isDig_elim {c : Char} (h : isDig c = true) :
    c = '0' ∨ c = '1' ∨ c = '2' ∨ c = '3' ∨ c = '4' ∨
    c = '5' ∨ c = '6' ∨ c = '7' ∨ c = '8' ∨ c = '9' := by
  have h2 := h
  simp only [isDig, Bool.or_eq_true, decide_eq_true_eq] at h2
  tauto

/-- A digit's value is at most nine. -/
theorem digitVal_le_nine {c : Char} (h : isDig c = true) : digitVal c ≤ 9 := by
  rcases isDig_elim h with h | h | h | h | h | h | h | h | h | h <;> subst h <;> decide

/-- A digit is not a sign character. -/
theorem isDig_not_sign {c : Char} (h : isDig c = true) : c ≠ '-' ∧ c ≠ '+' := by
  rcases isDig_elim h with h | h | h | h | h | h | h | h | h | h <;> subst h <;>
    exact ⟨by decide, by decide⟩

/-- The zero character satisfies the digit class. -/
theorem zero_isDig {c : Char} (h : (c == '0') = true) : isDig c = true := by
  rw [beq_iff_eq] at h
  subst h
  decide

/-- A digit string's value is below the power of ten of its length. -/
theorem digitsToNat_lt {ds : List Char} (h : ds.all isDig = true) :
    digitsToNat ds < 10 ^ ds.length := by
  induction ds with
  | nil => simp [digitsToNat]
  | cons c t ih =>
    rw [List.all_cons, Bool.and_eq_true] at h
    have h1 : digitVal c * 10 ^ t.length ≤ 9 * 10 ^ t.length :=
      Nat.mul_le_mul_right _ (digitVal_le_nine h.1)
    have h2 := ih h.2
    have h3 : 10 ^ (c :: t).length = 10 * 10 ^ t.length := by
      rw [List.length_cons, pow_succ, Nat.mul_comm]
    rw [digitsToNat, h3]
    omega

/-- A string of zero characters has value zero. -/
theorem digitsToNat_zeros {zs : List Char} (h : zs.all (fun c => c == '0') = true) :
    digitsToNat zs = 0 := by
  induction zs with
  | nil => rfl
  | cons c t ih =>
    rw [List.all_cons, Bool.and_eq_true] at h
    have h1 : c = '0' := beq_iff_eq.mp h.1
    have h0 : digitVal '0' = 0 := by decide
    rw [digitsToNat, ih h.2, h1, h0]
    simp

/-- The fractional part of a digit string is non-negative and below one. -/
theorem fracPart_bounds {fs : List Char} (h : fs.all isDig = true) :
    0 ≤ (digitsToNat fs : ℚ) / 10 ^ fs.length ∧ (digitsToNat fs : ℚ) / 10 ^ fs.length < 1 := by
  constructor
  · positivity
  · rw [div_lt_one (by positivity)]
    exact_mod_cast digitsToNat_lt h

/-- A group a matcher for `[0-9]+(?:\.[0-9]+)?` can produce: digits, or
digits dot digits. -/
def NumGroup (g : List Char) : Prop :=
  (g ≠ [] ∧ g.all isDig = true) ∨
  ∃ ds fs, g = ds ++ '.' :: fs ∧ ds ≠ [] ∧ ds.all isDig = true ∧ fs ≠ [] ∧ fs.all isDig = true

/-- A list all of whose elements satisfy the test is its own maximal
take-while. -/
theorem takeWhile_eq_self_of_all {p : Char → Bool} {l : List Char} (h : l.all p = true) :
    l.takeWhile p = l :=
  List.takeWhile_eq_self_iff.mpr (List.all_eq_true.mp h)

/-- Take-while stops exactly at the first failing element. -/
theorem takeWhile_append_stop {p : Char → Bool} {ds : List Char} {x : Char} {rest : List Char}
    (h : ds.all p = true) (hx : p x = false) :
    (ds ++ x :: rest).takeWhile p = ds := by
  induction ds with
  | nil => simp [List.takeWhile_cons, hx]
  | cons c t ih =>
    rw [List.all_cons, Bool.and_eq_true] at h
    simp [List.takeWhile_cons, h.1, ih h.2]

/-- `numTail` produces only well-formed numeric groups. -/
theorem numTail_shape {cs g : List Char} (h : numTail cs = some g) : NumGroup g := by
  have hall : (cs.takeWhile isDig).all isDig = true := List.all_takeWhile
  simp only [numTail] at h
  split at h
  · simp at h
  · rename_i hds
    have hne : cs.takeWhile isDig ≠ [] := by
      intro hnil
      rw [hnil] at hds
      exact hds rfl
    split at h
    · split at h
      · cases h
        exact Or.inl ⟨hne, hall⟩
      · rename_i hfs
        cases h
        refine Or.inr ⟨_, _, rfl, hne, hall, ?_, List.all_takeWhile⟩
        intro hnil
        rw [hnil] at hfs
        exact hfs rfl
    · cases h
      exact Or.inl ⟨hne, hall⟩

/-! Evaluation lemmas for the `float()` model. -/

/-- When the head is a digit, the sign branches of `pyFloat` fall through. -/
theorem pyFloat_digit_head {c : Char} {t : List Char} (h : isDig c = true) :
    pyFloat (c :: t) = pyFloatCore (c :: t) := by
  obtain ⟨h1, h2⟩ := isDig_not_sign h
  simp [pyFloat, h1, h2]

/-- `float()` on a pure digit string yields its base-10 value. -/
theorem pyFloatCore_all_digs {g : List Char} (hne : g ≠ []) (h : g.all isDig = true) :
    pyFloatCore g = some ((digitsToNat g : ℚ)) := by
  simp only [pyFloatCore, takeWhile_eq_self_of_all h, List.drop_length]
  rcases g with _ | ⟨c, t⟩
  · exact absurd rfl hne
  · rfl

/-- `float()` on digits, a dot, and digits yields the decimal value. -/
theorem pyFloatCore_digs_frac {ds fs : List Char} (hne : ds ≠ []) (hds : ds.all isDig = true)
    (hfs : fs.all isDig = true) :
    pyFloatCore (ds ++ '.' :: fs) = some (decVal ds fs) := by
  have hdot : isDig '.' = false := by decide
  have hemp : ds.isEmpty = false := by
    rcases ds with _ | _
    · exact absurd rfl hne
    · rfl
  simp only [pyFloatCore, takeWhile_append_stop hds hdot, List.drop_left, hfs, hemp,
    Bool.false_and, Bool.not_false, Bool.true_and, if_true]

/-- Every well-formed numeric group converts with `float()`, to a
non-negative value. -/
theorem numGroup_pyFloat {g : List Char} (h : NumGroup g) :
    ∃ v, pyFloat g = some v ∧ 0 ≤ v := by
  rcases h with ⟨hne, hall⟩ | ⟨ds, fs, rfl, hne, hds, _, hfs⟩
  · rcases g with _ | ⟨c, t⟩
    · exact absurd rfl hne
    · have hc : isDig c = true := by
        rw [List.all_cons, Bool.and_eq_true] at hall
        exact hall.1
      have heq : pyFloat (c :: t) = some ((digitsToNat (c :: t) : ℚ)) := by
        rw [pyFloat_digit_head hc, pyFloatCore_all_digs hne hall]
      exact ⟨_, heq, by positivity⟩
  · rcases ds with _ | ⟨c, t⟩
    · exact absurd rfl hne
    · have hc : isDig c = true := by
        rw [List.all_cons, Bool.and_eq_true] at hds
        exact hds.1
      have heq : pyFloat ((c :: t) ++ '.' :: fs) = some (decVal (c :: t) fs) := by
        rw [List.cons_append, pyFloat_digit_head hc, ← List.cons_append,
          pyFloatCore_digs_frac hne hds hfs]
      refine ⟨_, heq, ?_⟩
      unfold decVal
      have := (fracPart_bounds hfs).1
      positivity

/-! Shape lemmas for the stage-2 standalone-number pattern. -/

/-- The groups the stage-2 pattern can produce: a single digit with an
optional fraction, or ten with an optional run of zeros. -/
def S2Group (g : List Char) : Prop :=
  (∃ d, g = [d] ∧ isDig d = true) ∨
  (∃ d fs, g = d :: '.' :: fs ∧ isDig d = true ∧ fs ≠ [] ∧ fs.all isDig = true) ∨
  g = ['1', '0'] ∨
  (∃ zs, g = '1' :: '0' :: '.' :: zs ∧ zs ≠ [] ∧ zs.all (fun c => c == '0') = true)

/-- The fraction backtracker only returns the head digit, a dot, and a
non-empty sublist of the digits it was given. -/
theorem fracBt_shape {d : Char} {rfs : List Char} :
    ∀ {after g : List Char}, rfs.all isDig = true → fracBt d rfs after = some g →
    ∃ fs, g = d :: '.' :: fs ∧ fs ≠ [] ∧ fs.all isDig = true := by
  induction rfs with
  | nil =>
    intro after g _ h
    simp [fracBt] at h
  | cons x rest ih =>
    intro after g hall h
    rw [List.all_cons, Bool.and_eq_true] at hall
    rw [fracBt] at h
    split at h
    · cases h
      refine ⟨(x :: rest).reverse, rfl, by simp, ?_⟩
      rw [List.all_reverse, List.all_cons, Bool.and_eq_true]
      exact hall
    · exact ih hall.2 h

/-- The zero backtracker only returns ten, a dot, and a non-empty run of
zeros. -/
theorem zeroBt_shape {rzs : List Char} :
    ∀ {after g : List Char}, rzs.all (fun c => c == '0') = true → zeroBt rzs after = some g →
    ∃ zs, g = '1' :: '0' :: '.' :: zs ∧ zs ≠ [] ∧ zs.all (fun c => c == '0') = true := by
  induction rzs with
  | nil =>
    intro after g _ h
    simp [zeroBt] at h
  | cons x rest ih =>
    intro after g hall h
    rw [List.all_cons, Bool.and_eq_true] at hall
    rw [zeroBt] at h
    split at h
    · cases h
      refine ⟨(x :: rest).reverse, rfl, by simp, ?_⟩
      rw [List.all_reverse, List.all_cons, Bool.and_eq_true]
      exact hall
    · exact ih hall.2 h

/-- The optional-fraction attempt produces only digit-dot-digits groups. -/
theorem fracOpt_shape {d : Char} {rest g : List Char} (h : fracOpt d rest = some g) :
    ∃ fs, g = d :: '.' :: fs ∧ fs ≠ [] ∧ fs.all isDig = true := by
  rcases rest with _ | ⟨c, t⟩
  · simp [fracOpt] at h
  · rw [fracOpt] at h
    split at h
    · exact fracBt_shape (by rw [List.all_reverse]; exact List.all_takeWhile) h
    · cases h

/-- The optional-zeros attempt produces only ten-dot-zeros groups. -/
theorem zeroOpt_shape {rest g : List Char} (h : zeroOpt rest = some g) :
    ∃ zs, g = '1' :: '0' :: '.' :: zs ∧ zs ≠ [] ∧ zs.all (fun c => c == '0') = true := by
  rcases rest with _ | ⟨c, t⟩
  · simp [zeroOpt] at h
  · rw [zeroOpt] at h
    split at h
    · exact zeroBt_shape (by rw [List.all_reverse]; exact List.all_takeWhile) h
    · cases h

/-- Stage-2 alternative 1 produces only single-digit-based groups. -/
theorem s2Alt1_shape {cs g : List Char} (h : s2Alt1 cs = some g) :
    (∃ d, g = [d] ∧ isDig d = true) ∨
    (∃ d fs, g = d :: '.' :: fs ∧ isDig d = true ∧ fs ≠ [] ∧ fs.all isDig = true) := by
  rcases cs with _ | ⟨d, rest⟩
  · simp [s2Alt1] at h
  · rw [s2Alt1] at h
    split at h
    · rename_i hd
      split at h
      · rename_i g' hfrac
        cases h
        obtain ⟨fs, rfl, hfne, hfall⟩ := fracOpt_shape hfrac
        exact Or.inr ⟨d, fs, rfl, hd, hfne, hfall⟩
      · split at h
        · cases h
          exact Or.inl ⟨d, rfl, by assumption⟩
        · cases h
    · cases h

/-- Stage-2 alternative 2 produces only ten-based groups. -/
theorem s2Alt2_shape {cs g : List Char} (h : s2Alt2 cs = some g) :
    g = ['1', '0'] ∨
    (∃ zs, g = '1' :: '0' :: '.' :: zs ∧ zs ≠ [] ∧ zs.all (fun c => c == '0') = true) := by
  rcases cs with _ | ⟨a, _ | ⟨b, rest⟩⟩
  · simp [s2Alt2] at h
  · simp [s2Alt2] at h
  · rw [s2Alt2] at h
    split at h
    · split at h
      · rename_i g' hzeros
        cases h
        obtain ⟨zs, rfl, hzne, hzall⟩ := zeroOpt_shape hzeros
        exact Or.inr ⟨zs, rfl, hzne, hzall⟩
      · split at h
        · cases h
          exact Or.inl rfl
        · cases h
    · cases h

/-- A stage-2 match attempt produces only well-formed stage-2 groups. -/
theorem s2MatchAt_shape {cs g : List Char} (h : s2MatchAt cs = some g) : S2Group g := by
  rw [s2MatchAt] at h
  rcases halt : s2Alt1 cs with _ | g1
  · rw [halt] at h
    rcases s2Alt2_shape h with h2 | h2
    · exact Or.inr (Or.inr (Or.inl h2))
    · exact Or.inr (Or.inr (Or.inr h2))
  · rw [halt] at h
    cases h
    rcases s2Alt1_shape halt with h1 | h1
    · exact Or.inl h1
    · exact Or.inr (Or.inl h1)

/-- The stage-2 search produces only well-formed stage-2 groups. -/
theorem s2SearchFrom_shape {cs : List Char} :
    ∀ {b : Bool} {g : List Char}, s2SearchFrom b cs = some g → S2Group g := by
  induction cs with
  | nil =>
    intro b g h
    simp [s2SearchFrom] at h
  | cons c t ih =>
    intro b g h
    rw [s2SearchFrom] at h
    split at h
    · rename_i hm
      cases h
      rcases b with _ | _
      · exact s2MatchAt_shape hm
      · simp at hm
    · exact ih h

/-- Every stage-2 group converts with `float()` to a value in [0, 10]. -/
theorem s2Group_val {g : List Char} (h : S2Group g) :
    ∃ v, pyFloat g = some v ∧ 0 ≤ v ∧ v ≤ 10 := by
  rcases h with ⟨d, rfl, hd⟩ | ⟨d, fs, rfl, hd, hfne, hfall⟩ | rfl | ⟨zs, rfl, hzne, hzall⟩
  · have hall : ([d] : List Char).all isDig = true := by
      rw [List.all_cons]
      simp [hd]
    have heq : pyFloat [d] = some ((digitsToNat [d] : ℚ)) := by
      rw [pyFloat_digit_head hd, pyFloatCore_all_digs (by simp) hall]
    have h9 : digitsToNat [d] ≤ 9 := by
      have := digitVal_le_nine hd
      simp only [digitsToNat, List.length_nil, pow_zero]
      omega
    have h9q : ((digitsToNat [d] : ℚ)) ≤ 9 := by exact_mod_cast h9
    exact ⟨_, heq, by positivity, by linarith⟩
  · have hds : ([d] : List Char).all isDig = true := by
      rw [List.all_cons]
      simp [hd]
    have heq : pyFloat (d :: '.' :: fs) = some (decVal [d] fs) := by
      rw [pyFloat_digit_head hd, show ((d :: '.' :: fs : List Char)) = [d] ++ '.' :: fs from rfl,
        pyFloatCore_digs_frac (by simp) hds hfall]
    have hfrac := fracPart_bounds hfall
    have h9 : digitsToNat [d] ≤ 9 := by
      have := digitVal_le_nine hd
      simp only [digitsToNat, List.length_nil, pow_zero]
      omega
    have h9q : ((digitsToNat [d] : ℚ)) ≤ 9 := by exact_mod_cast h9
    refine ⟨_, heq, ?_, ?_⟩
    · unfold decVal
      have := hfrac.1
      positivity
    · unfold decVal
      linarith [hfrac.2]
  · have heq : pyFloat ['1', '0'] = some ((digitsToNat ['1', '0'] : ℚ)) := by
      rw [pyFloat_digit_head (by decide), pyFloatCore_all_digs (by simp) (by decide)]
    have h10 : digitsToNat ['1', '0'] = 10 := by decide
    rw [h10] at heq
    exact ⟨_, heq, by positivity, by norm_num⟩
  · have hzd : zs.all isDig = true := by
      rw [List.all_eq_true] at *
      intro x hx
      exact zero_isDig (hzall x hx)
    have heq : pyFloat ('1' :: '0' :: '.' :: zs) = some (decVal ['1', '0'] zs) := by
      rw [pyFloat_digit_head (by decide),
        show (('1' :: '0' :: '.' :: zs : List Char)) = ['1', '0'] ++ '.' :: zs from rfl,
        pyFloatCore_digs_frac (by simp) (by decide) hzd]
    have hval : decVal ['1', '0'] zs = 10 := by
      unfold decVal
      rw [digitsToNat_zeros hzall, show digitsToNat ['1', '0'] = 10 from by decide]
      simp
    rw [hval] at heq
    exact ⟨_, heq, by positivity, by norm_num⟩

/-! Branch lemmas for the revision extractor. -/

/-- A stage-1 match attempt produces only well-formed numeric groups. -/
theorem s1MatchAt_shape {cs g : List Char} (h : s1MatchAt cs = some g) : NumGroup g := by
  rw [s1MatchAt] at h
  split at h
  · exact Option.noConfusion h
  · exact numTail_shape h

/-- The stage-1 search produces only well-formed numeric groups. -/
theorem s1Search_shape {cs g : List Char} (h : s1Search cs = some g) : NumGroup g := by
  induction cs with
  | nil => simp [s1Search] at h
  | cons c t ih =>
    rw [s1Search] at h
    split at h
    · rename_i hm
      cases h
      exact s1MatchAt_shape hm
    · exact ih h

/-- When stage 1 matches, its group converts and decides the result. -/
theorem extract_revision_s1 {text : String} {g : List Char}
    (h : s1Search text.toList = some g) :
    ∃ v, pyFloat g = some v ∧ extract_revision text = some v := by
  obtain ⟨v, hv, _⟩ := numGroup_pyFloat (s1Search_shape h)
  refine ⟨v, hv, ?_⟩
  simp only [extract_revision, h, hv]

/-- When stage 1 does not match, the result is stage 2's converted group. -/
theorem extract_revision_s1_none {text : String} (h : s1Search text.toList = none) :
    extract_revision text =
      (match s2Search text.toList with
       | some g => pyFloat g
       | none => none) := by
  simp only [extract_revision, h]

/-- A value obtained through the stage-2 fallback lies in [0, 10]. -/
theorem extract_revision_fallback_bounds {text : String} {v : ℚ}
    (h1 : s1Search text.toList = none) (h2 : extract_revision text = some v) :
    0 ≤ v ∧ v ≤ 10 := by
  rw [extract_revision_s1_none h1] at h2
  rcases hs2 : s2Search text.toList with _ | g
  · simp only [hs2] at h2
    exact Option.noConfusion h2
  · simp only [hs2] at h2
    obtain ⟨w, hw, hw0, hw10⟩ := s2Group_val (s2SearchFrom_shape hs2)
    rw [hw] at h2
    injection h2 with hv
    subst hv
    exact ⟨hw0, hw10⟩

/-! Lemmas about template rendering. -/

/-- A rendering error names a placeholder of the template that the row
does not provide. -/
theorem render_error_missing : ∀ {tpl : List Tpart} {row : Row} {f : String},
    render tpl row = .error f → Tpart.fld f ∈ tpl ∧ alookup row f = none := by
  intro tpl
  induction tpl with
  | nil =>
    intro row f h
    simp [render] at h
  | cons p t ih =>
    intro row f h
    rcases p with s | n
    · rcases hr : render t row with e | r
      · simp only [render, hr] at h
        injection h with he
        subst he
        obtain ⟨hm, hl⟩ := ih hr
        exact ⟨List.mem_cons_of_mem _ hm, hl⟩
      · simp only [render, hr] at h
        exact Except.noConfusion h
    · rcases hlk : alookup row n with _ | v
      · simp only [render, hlk] at h
        injection h with hn
        subst hn
        exact ⟨List.mem_cons_self _ _, hlk⟩
      · rcases hr : render t row with e | r
        · simp only [render, hlk, hr] at h
          injection h with he
          subst he
          obtain ⟨hm, hl⟩ := ih hr
          exact ⟨List.mem_cons_of_mem _ hm, hl⟩
        · simp only [render, hlk, hr] at h
          exact Except.noConfusion h

/-- A placeholder the row does not provide makes rendering fail. -/
theorem render_missing_error : ∀ {tpl : List Tpart} {row : Row},
    (∃ f, Tpart.fld f ∈ tpl ∧ alookup row f = none) →
    ∃ f, render tpl row = .error f := by
  intro tpl
  induction tpl with
  | nil =>
    rintro row ⟨f, hm, _⟩
    simp at hm
  | cons p t ih =>
    rintro row ⟨f, hm, hl⟩
    rcases p with s | n
    · have hmt : Tpart.fld f ∈ t := by
        rcases List.mem_cons.mp hm with h1 | h1
        · exact absurd h1 (by simp)
        · exact h1
      obtain ⟨f', hf'⟩ := ih ⟨f, hmt, hl⟩
      exact ⟨f', by simp only [render, hf']⟩
    · rcases hlk : alookup row n with _ | v
      · exact ⟨n, by simp only [render, hlk]⟩
      · have hmt : Tpart.fld f ∈ t := by
          rcases List.mem_cons.mp hm with h1 | h1
          · injection h1 with hnf
            subst hnf
            rw [hlk] at hl
            exact Option.noConfusion hl
          · exact h1
        obtain ⟨f', hf'⟩ := ih ⟨f, hmt, hl⟩
        exact ⟨f', by simp only [render, hlk, hf']⟩

/-! Stage-boundary lemmas for the orchestrator. -/

/-- The chat calls and renders of the first three stages all succeeding,
with the given prompts and responses. -/
def stagePrefixOk (search : SearchFn) (chatO : ChatFn) (row : Row) (m : MetricSpec)
    (prompt rp cp resp0 resp1 : String) : Prop :=
  render m.prompt_template row = .ok prompt ∧
  chatO 0 prompt = .ok resp0 ∧
  render m.reflection_prompt (("score", qToStr (scoreStageVal search m.parser resp0)) :: row) =
    .ok rp ∧
  chatO 1 (pyTrunc 1024 rp) = .ok resp1 ∧
  render m.confidence_prompt (("score", qToStr (scoreStageVal search m.parser resp0)) :: row) =
    .ok cp

/-- The record `_apply_metric` assembles when the first three stages'
renders and chat calls succeed. -/
def expectedRecord (search : SearchFn) (chatO : ChatFn) (row : Row) (m : MetricSpec)
    (prompt cp resp0 resp1 : String) : ScoreDict :=
  { row_id := (alookup row "id").getD "unknown",
    metric := m.name,
    score := scoreStageVal search m.parser resp0,
    revised_score := extract_revision resp1,
    revision_delta :=
      (extract_revision resp1).map (fun v => v - scoreStageVal search m.parser resp0),
    critique := some resp1,
    self_conf :=
      match chatO 2 cp with
      | .error _ => none
      | .ok conf_response => extract_confidence conf_response,
    agree_conf :=
      agreeStage (keptResamples search m.parser chatO prompt)
        (scoreStageVal search m.parser resp0) }

/-- Master evaluation lemma: under `stagePrefixOk` the orchestrator emits
exactly the expected record. -/
theorem apply_metric_eq_ok {search : SearchFn} {chatO : ChatFn} {row : Row} {m : MetricSpec}
    {prompt rp cp resp0 resp1 : String}
    (h : stagePrefixOk search chatO row m prompt rp cp resp0 resp1) :
    apply_metric search chatO row m = .ok (expectedRecord search chatO row m prompt cp resp0 resp1) := by
  obtain ⟨h1, h2, h3, h4, h5⟩ := h
  simp only [apply_metric, h1, h2, h3, h4, h5, expectedRecord]

/-- A template error on the scoring prompt aborts the pair. -/
theorem apply_metric_tmpl_err {search : SearchFn} {chatO : ChatFn} {row : Row} {m : MetricSpec}
    {f : String} (h1 : render m.prompt_template row = .error f) :
    apply_metric search chatO row m = .error (.template f) := by
  simp only [apply_metric, h1]

/-- A transport error on the score-stage chat call aborts the pair. -/
theorem apply_metric_chat0_err {search : SearchFn} {chatO : ChatFn} {row : Row} {m : MetricSpec}
    {prompt : String} {e : ChatErr}
    (h1 : render m.prompt_template row = .ok prompt) (h2 : chatO 0 prompt = .error e) :
    apply_metric search chatO row m = .error (.chat e) := by
  simp only [apply_metric, h1, h2]

/-- A transport error on the reflection-stage chat call aborts the pair. -/
theorem apply_metric_chat1_err {search : SearchFn} {chatO : ChatFn} {row : Row} {m : MetricSpec}
    {prompt rp resp0 : String} {e : ChatErr}
    (h1 : render m.prompt_template row = .ok prompt) (h2 : chatO 0 prompt = .ok resp0)
    (h3 : render m.reflection_prompt
      (("score", qToStr (scoreStageVal search m.parser resp0)) :: row) = .ok rp)
    (h4 : chatO 1 (pyTrunc 1024 rp) = .error e) :
    apply_metric search chatO row m = .error (.chat e) := by
  simp only [apply_metric, h1, h2, h3, h4]

/-- When all three resample chat calls fail, no sample is kept. -/
theorem keptResamples_nil {search : SearchFn} {parser : String} {chatO : ChatFn} {prompt : String}
    {e3 e4 e5 : ChatErr} (h3 : chatO 3 prompt = .error e3) (h4 : chatO 4 prompt = .error e4)
    (h5 : chatO 5 prompt = .error e5) :
    keptResamples search parser chatO prompt = [] := by
  simp [keptResamples, sampleAt, h3, h4, h5]

/-- An empty kept sample yields an absent agreement value. -/
theorem agreeStage_nil (b : ℚ) : agreeStage [] b = none := rfl

/-- A non-empty kept sample yields the tolerance-ratio percentage. -/
theorem agreeStage_of_ne_nil {kept : List ℚ} (h : kept ≠ []) (b : ℚ) :
    agreeStage kept b =
      some (((kept.filter (fun s => |s - b| ≤ 1)).length : ℚ) / 3 * 100) := by
  have hemp : kept.isEmpty = false := by
    rcases kept with _ | _
    · exact absurd rfl h
    · rfl
  simp [agreeStage, hemp]

/-! Propagation of uncaught exceptions through the row and dataset loops. -/

/-- A failing metric aborts the whole row evaluation at once. -/
theorem evalRowAux_err_head {search : SearchFn} {fam : ChatFam} {row : Row} {i : Nat}
    {m : MetricSpec} {ms : List MetricSpec} {e : PErr}
    (h : apply_metric search (fam i) row m = .error e) :
    evalRowAux search fam row i (m :: ms) = .error e := by
  simp only [evalRowAux, h]

/-- A failing row evaluation aborts the whole dataset evaluation at once. -/
theorem evalDsAux_err_head {search : SearchFn} {ds : ChatDs} {metrics : List MetricSpec}
    {j : Nat} {row : Row} {rows : List Row} {e : PErr}
    (h : evaluate_row search (ds j) row metrics = .error e) :
    evalDsAux search ds metrics j (row :: rows) = .error e := by
  simp only [evalDsAux, h]

/-! Registry lemmas. -/

/-- A file that did not produce a spec contributes nothing, wherever it
sits in the directory enumeration. -/
theorem load_registry_entry_ignored {fs1 fs2 : List RegFile} {n : String} {d : FileData}
    (hd : ∀ m : MetricSpec, d ≠ .valid m) :
    load_registry (fs1 ++ ⟨n, d⟩ :: fs2) = load_registry (fs1 ++ fs2) := by
  rcases d with _ | _ | m
  · simp [load_registry, List.filterMap_append, List.filterMap_cons, ite_self]
  · simp [load_registry, List.filterMap_append, List.filterMap_cons, ite_self]
  · exact absurd rfl (hd m)

/-- A successfully parsed spec in a YAML-named file is registered, whatever
its parser directive says. -/
theorem load_registry_valid_head {n : String} {m : MetricSpec} {fs : List RegFile}
    (hn : isYamlName n = true) :
    load_registry (⟨n, .valid m⟩ :: fs) = m :: load_registry fs := by
  simp [load_registry, List.filterMap_cons, hn]

/-- An unrecognized parser directive makes every parse fail. -/
theorem parse_score_unsupported {search : SearchFn} {parser text : String}
    (h : strStartsWith parser "regex:" = false) :
    parse_score search parser text = .error .unsupported := by
  simp [parse_score, h]

/-! Claim theorems. -/

/-- C5: revision extraction applies its two stages in order with stage-1
precedence — a case-insensitive `Revised score` label followed by a number
decides the result whenever it matches anywhere (its group always converts),
even when a standalone 0-10 number occurs earlier in the text (the example
with both `Revised score: 6` and a stray `9` yields 6, never 9); only when
stage 1 does not match is the first standalone 0-10 number used; when
neither stage matches the result is absent. -/
theorem revision_extraction_precedence :
    (∀ (text : String) (g : List Char), s1Search text.toList = some g →
      ∃ v, pyFloat g = some v ∧ extract_revision text = some v) ∧
    (∀ text : String, s1Search text.toList = none →
      extract_revision text =
        (match s2Search text.toList with
         | some g => pyFloat g
         | none => none)) ∧
    (∀ text : String, s1Search text.toList = none → s2Search text.toList = none →
      extract_revision text = none) ∧
    extract_revision "A stray 9 appears early. Revised score: 6" = some 6 ∧
    extract_revision "The answer rates a 7" = some 7 := by
  refine ⟨fun text g h => extract_revision_s1 h,
    fun text h => extract_revision_s1_none h, ?_, by decide, by decide⟩
  intro text h1 h2
  rw [extract_revision_s1_none h1]
  simp only [h2]

/-- C5 witness: the precedence theorem applied at concrete inputs. -/
theorem revision_extraction_precedence_witness :
    (∃ v, pyFloat ['6'] = some v ∧
      extract_revision "A stray 9 appears early. Revised score: 6" = some v) ∧
    extract_revision "just words" = none := by
  refine ⟨revision_extraction_precedence.1 _ ['6'] (by decide), ?_⟩
  exact revision_extraction_precedence.2.2.1 "just words" (by decide) (by decide)

/-- C10: whenever the revision extractor produces a value via the stage-2
fallback (stage 1 did not match), the value lies in [0, 10]; a stage-1
labeled match is not bounded by 10 (`Revised score: 42` yields 42). -/
theorem fallback_revision_bounded :
    (∀ (text : String) (v : ℚ), s1Search text.toList = none →
      extract_revision text = some v → 0 ≤ v ∧ v ≤ 10) ∧
    extract_revision "Revised score: 42" = some 42 ∧ (10 : ℚ) < 42 := by
  exact ⟨fun text v h1 h2 => extract_revision_fallback_bounds h1 h2, by decide, by decide⟩

/-- C10 witness: the bound theorem applied to a concrete fallback text. -/
theorem fallback_revision_bounded_witness :
    0 ≤ (7 : ℚ) ∧ (7 : ℚ) ≤ 10 :=
  fallback_revision_bounded.1 "The answer rates a 7" 7 (by decide) (by decide)

/-- C8: confidence extraction finds the first run of one to three digits
with an optional decimal fraction, reads it as a percentage and clamps the
result to [0, 100] (`My confidence is 85%` gives 85, `120% sure` gives 100);
on no match the value is absent, never zero (the empty string is absent). -/
theorem confidence_extraction_spec :
    extract_confidence "My confidence is 85%" = some 85 ∧
    extract_confidence "120% sure" = some 100 ∧
    extract_confidence "" = none ∧
    (∀ text : String, confSearch text.toList = none → extract_confidence text = none) ∧
    (∀ (text : String) (v : ℚ), extract_confidence text = some v → 0 ≤ v ∧ v ≤ 100) := by
  refine ⟨by decide, by decide, by decide, ?_, ?_⟩
  · intro text h
    simp [extract_confidence, show confSearch text.data = none from h]
  · intro text v h
    simp only [extract_confidence] at h
    rcases hs : confSearch text.toList with _ | g
    · simp only [hs] at h
      exact Option.noConfusion h
    · simp only [hs] at h
      rcases hp : pyFloat g with _ | w
      · simp only [hp] at h
        exact Option.noConfusion h
      · simp only [hp] at h
        injection h with hv
        subst hv
        by_cases h1 : w > 100
        · rw [if_pos h1]
          norm_num
        · rw [if_neg h1]
          by_cases h2 : w < 0
          · rw [if_pos h2]
            norm_num
          · rw [if_neg h2]
            constructor <;> linarith

/-- C8 witness: the absence and clamp-bound parts applied concretely. -/
theorem confidence_extraction_spec_witness :
    extract_confidence "no digits at all" = none ∧ 0 ≤ (90 : ℚ) ∧ (90 : ℚ) ≤ 100 := by
  refine ⟨confidence_extraction_spec.2.2.2.1 "no digits at all" (by decide), ?_, ?_⟩
  · exact (confidence_extraction_spec.2.2.2.2 "90% confident" 90 (by decide)).1
  · exact (confidence_extraction_spec.2.2.2.2 "90% confident" 90 (by decide)).2

/-- C9: score parsing succeeds with the float value of the first match's
first capturing group — the pattern of a `regex:` directive applied as a
search — exactly when the directive has the recognized form, the pattern
matches, and the group converts; the three failure cases (unrecognized
directive, no match, non-numeric group) each raise `ParseError`.  With the
registry's numeric pattern, `Score: 7.5` parses to 7.5 and `no number here`
fails with no-match. -/
theorem parse_score_contract :
    (∀ (search : SearchFn) (parser text : String),
      strStartsWith parser "regex:" = false →
      parse_score search parser text = .error .unsupported) ∧
    (∀ (search : SearchFn) (parser text : String),
      strStartsWith parser "regex:" = true →
      search (strDrop parser 6) text = none →
      parse_score search parser text = .error .noMatch) ∧
    (∀ (search : SearchFn) (parser text : String) (m : RMatch),
      strStartsWith parser "regex:" = true →
      search (strDrop parser 6) text = some m →
      parse_score search parser text =
        (match m.group1 with
         | some g =>
           (match pyFloat g.toList with
            | some v => Except.ok v
            | none => Except.error ParseErr.badFloat)
         | none => Except.error ParseErr.badFloat)) ∧
    parse_score numSearch ("regex:" ++ numPat) "Score: 7.5" = .ok (decVal ['7'] ['5']) ∧
    decVal ['7'] ['5'] = 15 / 2 ∧
    parse_score numSearch ("regex:" ++ numPat) "no number here" = .error .noMatch := by
  refine ⟨fun search parser text h => parse_score_unsupported h, ?_, ?_, ?_, ?_, by decide⟩
  · intro search parser text h1 h2
    simp only [parse_score, h1, h2, if_true]
  · intro search parser text m h1 h2
    simp only [parse_score, h1, h2, if_true]
  · rfl
  · rw [decVal, show digitsToNat ['7'] = 7 from by decide,
      show digitsToNat ['5'] = 5 from by decide]
    norm_num

/-- C9 witness: the contract applied with a concrete engine and inputs. -/
theorem parse_score_contract_witness :
    parse_score numSearch "magic" "Score: 7" = .error .unsupported ∧
    parse_score numSearch ("regex:" ++ numPat) "Score: 7" = .ok 7 := by
  refine ⟨parse_score_contract.1 numSearch "magic" "Score: 7" (by decide), ?_⟩
  have h := parse_score_contract.2.2.1 numSearch ("regex:" ++ numPat) "Score: 7"
    ⟨"7", some "7"⟩ (by decide) (by decide)
  rw [h]
  decide

/-- C4: the agreement stage issues exactly three resample chat requests —
call indices 3, 4, 5, each on the original stage-1 scoring prompt; a sample
whose chat call or parse fails is silently dropped; the emitted record's
`agree_conf` is `(kept within 1.0 of the stage-1 score) / 3 × 100` whenever
a sample is kept (baseline 5 with kept samples 5.5, 4.2, 9 gives 200/3 =
66.66...), and absent (not zero) exactly when all three samples are
dropped. -/
theorem agreement_estimator_correct :
    (∀ (search : SearchFn) (chatO : ChatFn) (row : Row) (m : MetricSpec)
      (prompt rp cp resp0 resp1 : String),
      stagePrefixOk search chatO row m prompt rp cp resp0 resp1 →
      ∃ r, apply_metric search chatO row m = .ok r ∧
        r.score = scoreStageVal search m.parser resp0 ∧
        r.agree_conf =
          agreeStage (keptResamples search m.parser chatO prompt)
            (scoreStageVal search m.parser resp0)) ∧
    (∀ (search : SearchFn) (parser : String) (chatO : ChatFn) (prompt : String)
      (i : Nat) (e : ChatErr), chatO i prompt = .error e →
      sampleAt search parser chatO prompt i = none) ∧
    (∀ (search : SearchFn) (parser : String) (chatO : ChatFn) (prompt resp : String)
      (i : Nat) (pe : ParseErr), chatO i prompt = .ok resp →
      parse_score search parser resp = .error pe →
      sampleAt search parser chatO prompt i = none) ∧
    (∀ b : ℚ, agreeStage [] b = none) ∧
    (∀ (kept : List ℚ) (b : ℚ), kept ≠ [] →
      agreeStage kept b =
        some (((kept.filter (fun s => |s - b| ≤ 1)).length : ℚ) / 3 * 100)) ∧
    agreeStage [5.5, 4.2, 9] 5 = some (200 / 3) := by
  refine ⟨?_, ?_, ?_, agreeStage_nil, fun kept b h => agreeStage_of_ne_nil h b, ?_⟩
  · intro search chatO row m prompt rp cp resp0 resp1 hpre
    exact ⟨_, apply_metric_eq_ok hpre, rfl, rfl⟩
  · intro search parser chatO prompt i e h
    simp [sampleAt, h]
  · intro search parser chatO prompt resp i pe h1 h2
    simp [sampleAt, h1, h2]
  · have h55 : |(5.5 : ℚ) - 5| ≤ 1 := by
      rw [abs_le]
      constructor <;> norm_num
    have h42 : |(4.2 : ℚ) - 5| ≤ 1 := by
      rw [abs_le]
      constructor <;> norm_num
    have h9 : ¬(|(9 : ℚ) - 5| ≤ 1) := by
      rw [abs_le]
      push_neg
      intro _
      norm_num
    rw [agreeStage_of_ne_nil (by simp) 5]
    simp only [List.filter_cons, List.filter_nil, decide_eq_true_eq]
    rw [if_pos h55, if_pos h42, if_neg h9]
    norm_num

/-- C4 witness: the agreement characterization applied to the concrete
pipeline run, and the all-dropped case applied concretely. -/
theorem agreement_estimator_correct_witness :
    (∃ r, apply_metric numSearch okC rowT mT = .ok r ∧
      r.score = scoreStageVal numSearch mT.parser "Score: 8" ∧
      r.agree_conf =
        agreeStage (keptResamples numSearch mT.parser okC "Rate this answer: A")
          (scoreStageVal numSearch mT.parser "Score: 8")) ∧
    sampleAt numSearch mT.parser resamplesFailC "Rate this answer: A" 3 = none := by
  constructor
  · exact agreement_estimator_correct.1 numSearch okC rowT mT
      "Rate this answer: A" "The score was 8. Critique it." "How confident are you in 8?"
      "Score: 8" "Revised score: 9, because it improved"
      ⟨by decide, rfl, by decide, rfl, by decide⟩
  · exact agreement_estimator_correct.2.1 numSearch mT.parser resamplesFailC
      "Rate this answer: A" 3 .transient (by decide)

/-- C6: a stage-1 parse failure substitutes score 0.0 and the pipeline
still runs the reflection, confidence and agreement stages and emits a
record — the parse failure itself never aborts the pair. -/
theorem parse_error_fail_soft :
    ∀ (search : SearchFn) (chatO : ChatFn) (row : Row) (m : MetricSpec)
      (prompt rp cp resp0 resp1 : String) (pe : ParseErr),
      stagePrefixOk search chatO row m prompt rp cp resp0 resp1 →
      parse_score search m.parser resp0 = .error pe →
      ∃ r, apply_metric search chatO row m = .ok r ∧
        r.score = 0 ∧
        r.critique = some resp1 ∧
        r.revised_score = extract_revision resp1 ∧
        r.self_conf =
          (match chatO 2 cp with
           | .error _ => none
           | .ok conf_response => extract_confidence conf_response) ∧
        r.agree_conf = agreeStage (keptResamples search m.parser chatO prompt) 0 := by
  intro search chatO row m prompt rp cp resp0 resp1 pe hpre hpe
  have hsv : scoreStageVal search m.parser resp0 = 0 := by
    simp only [scoreStageVal, hpe]
  refine ⟨_, apply_metric_eq_ok hpre, ?_, rfl, rfl, rfl, ?_⟩
  · simp [expectedRecord, hsv]
  · simp only [expectedRecord]
    rw [hsv]

/-- C6 witness: a judge response with no parseable number still yields a
record with score 0. -/
theorem parse_error_fail_soft_witness :
    ∃ r, apply_metric numSearch parseFailC rowT mT = .ok r ∧ r.score = 0 := by
  obtain ⟨r, h1, h2, _⟩ := parse_error_fail_soft numSearch parseFailC rowT mT
    "Rate this answer: A" "The score was 0. Critique it." "How confident are you in 0?"
    "no numeric value" "Revised score: 9, because it improved" .noMatch
    ⟨by decide, rfl, by decide, rfl, by decide⟩ (by decide)
  exact ⟨r, h1, h2⟩

/-- C1 counterexample: a transport-level chat failure at the score stage
(call 0) or the reflection stage (call 1) is not caught — the pair aborts
with the error and no record is emitted, against the claim that every
stage's transport failure is absorbed. -/
theorem transport_error_aborts_pair_cex :
    apply_metric numSearch (failAtC 0) rowT mT = .error (.chat .transient) ∧
    apply_metric numSearch (failAtC 1) rowT mT = .error (.chat .transient) :=
  ⟨by decide, by decide⟩

/-- C1 amended: transport errors are handled per stage only at the
confidence stage (`self_conf` absent) and the agreement stage (failing
samples dropped, `agree_conf` absent when all three fail); at the score and
reflection stages a transport error propagates and aborts the (row, metric)
pair with no record, and the score-stage 0.0 substitution applies to parse
failures, not transport failures. -/
theorem transport_error_stage_handling :
    (∀ (search : SearchFn) (chatO : ChatFn) (row : Row) (m : MetricSpec) (prompt : String)
      (e : ChatErr), render m.prompt_template row = .ok prompt →
      chatO 0 prompt = .error e →
      apply_metric search chatO row m = .error (.chat e)) ∧
    (∀ (search : SearchFn) (chatO : ChatFn) (row : Row) (m : MetricSpec)
      (prompt rp resp0 : String) (e : ChatErr),
      render m.prompt_template row = .ok prompt → chatO 0 prompt = .ok resp0 →
      render m.reflection_prompt
        (("score", qToStr (scoreStageVal search m.parser resp0)) :: row) = .ok rp →
      chatO 1 (pyTrunc 1024 rp) = .error e →
      apply_metric search chatO row m = .error (.chat e)) ∧
    (∀ (search : SearchFn) (chatO : ChatFn) (row : Row) (m : MetricSpec)
      (prompt rp cp resp0 resp1 : String) (e : ChatErr),
      stagePrefixOk search chatO row m prompt rp cp resp0 resp1 →
      chatO 2 cp = .error e →
      ∃ r, apply_metric search chatO row m = .ok r ∧ r.self_conf = none) ∧
    (∀ (search : SearchFn) (chatO : ChatFn) (row : Row) (m : MetricSpec)
      (prompt rp cp resp0 resp1 : String) (e3 e4 e5 : ChatErr),
      stagePrefixOk search chatO row m prompt rp cp resp0 resp1 →
      chatO 3 prompt = .error e3 → chatO 4 prompt = .error e4 → chatO 5 prompt = .error e5 →
      ∃ r, apply_metric search chatO row m = .ok r ∧ r.agree_conf = none) := by
  refine ⟨fun _ _ _ _ _ _ h1 h2 => apply_metric_chat0_err h1 h2,
    fun _ _ _ _ _ _ _ _ h1 h2 h3 h4 => apply_metric_chat1_err h1 h2 h3 h4, ?_, ?_⟩
  · intro search chatO row m prompt rp cp resp0 resp1 e hpre h2
    refine ⟨_, apply_metric_eq_ok hpre, ?_⟩
    simp [expectedRecord, h2]
  · intro search chatO row m prompt rp cp resp0 resp1 e3 e4 e5 hpre h3 h4 h5
    refine ⟨_, apply_metric_eq_ok hpre, ?_⟩
    simp only [expectedRecord, keptResamples_nil h3 h4 h5, agreeStage_nil]

/-- C1 witness: the stage-handling theorem applied to concrete chat
services failing at each stage. -/
theorem transport_error_stage_handling_witness :
    apply_metric numSearch (failAtC 0) rowT mT = .error (.chat ChatErr.transient) ∧
    (∃ r, apply_metric numSearch (failAtC 2) rowT mT = .ok r ∧ r.self_conf = none) ∧
    (∃ r, apply_metric numSearch resamplesFailC rowT mT = .ok r ∧ r.agree_conf = none) := by
  refine ⟨transport_error_stage_handling.1 numSearch (failAtC 0) rowT mT
      "Rate this answer: A" .transient (by decide) (by decide), ?_, ?_⟩
  · exact transport_error_stage_handling.2.2.1 numSearch (failAtC 2) rowT mT
      "Rate this answer: A" "The score was 8. Critique it." "How confident are you in 8?"
      "Score: 8" "Revised score: 9, because it improved" .transient
      ⟨by decide, rfl, by decide, rfl, by decide⟩ (by decide)
  · exact transport_error_stage_handling.2.2.2 numSearch resamplesFailC rowT mT
      "Rate this answer: A" "The score was 8. Critique it." "How confident are you in 8?"
      "Score: 8" "Revised score: 9, because it improved" .transient .transient .transient
      ⟨by decide, rfl, by decide, rfl, by decide⟩ (by decide) (by decide) (by decide)

/-- C2 counterexample: a metric whose template needs a missing row field
makes the whole row evaluation (and the whole dataset evaluation) return
the error — the second metric, which succeeds on its own, is never
evaluated and no record at all is produced. -/
theorem template_error_aborts_run_cex :
    evaluate_row numSearch (fun _ => okC) rowT [mBad, mT] =
      .error (.template "missing_field") ∧
    (∃ r, apply_metric numSearch okC rowT mT = .ok r) ∧
    evaluate_dataset numSearch (fun _ _ => okC) [rowT, rowT] false [mBad, mT] =
      .error (.template "missing_field") :=
  ⟨by decide, ⟨_, rfl⟩, by decide⟩

/-- C2 amended: a missing template field raises a `TemplateError` that
aborts the (row, metric) pair with no record, and the error propagates
uncaught through the row loop and the dataset loop, so the remaining
metrics of the row and all remaining rows are not evaluated either. -/
theorem template_error_propagation :
    (∀ (search : SearchFn) (chatO : ChatFn) (row : Row) (m : MetricSpec),
      (∃ f, Tpart.fld f ∈ m.prompt_template ∧ alookup row f = none) →
      ∃ f, render m.prompt_template row = .error f ∧
        apply_metric search chatO row m = .error (.template f)) ∧
    (∀ (search : SearchFn) (fam : ChatFam) (row : Row) (i : Nat) (m : MetricSpec)
      (ms : List MetricSpec) (e : PErr),
      apply_metric search (fam i) row m = .error e →
      evalRowAux search fam row i (m :: ms) = .error e) ∧
    (∀ (search : SearchFn) (fam : ChatFam) (row : Row) (m : MetricSpec)
      (ms : List MetricSpec) (e : PErr),
      apply_metric search (fam 0) row m = .error e →
      evaluate_row search fam row (m :: ms) = .error e) ∧
    (∀ (search : SearchFn) (ds : ChatDs) (metrics : List MetricSpec) (j : Nat)
      (row : Row) (rows : List Row) (e : PErr),
      evaluate_row search (ds j) row metrics = .error e →
      evalDsAux search ds metrics j (row :: rows) = .error e) ∧
    (∀ (search : SearchFn) (ds : ChatDs) (metrics : List MetricSpec)
      (row : Row) (rows : List Row) (e : PErr),
      evaluate_row search (ds 0) row metrics = .error e →
      evaluate_dataset search ds (row :: rows) false metrics = .error e) := by
  refine ⟨?_, fun _ _ _ _ _ _ _ h => evalRowAux_err_head h,
    fun _ _ _ _ _ _ h => evalRowAux_err_head h,
    fun _ _ _ _ _ _ _ h => evalDsAux_err_head h, ?_⟩
  · intro search chatO row m hex
    obtain ⟨f, hf⟩ := render_missing_error hex
    exact ⟨f, hf, apply_metric_tmpl_err hf⟩
  · intro search ds metrics row rows e h
    simp only [evaluate_dataset, Bool.false_eq_true, if_false]
    exact evalDsAux_err_head h

/-- C2 witness: the propagation theorem applied to the concrete bad metric
and row. -/
theorem template_error_propagation_witness :
    (∃ f, render mBad.prompt_template rowT = .error f ∧
      apply_metric numSearch okC rowT mBad = .error (.template f)) ∧
    evaluate_row numSearch (fun _ => okC) rowT [mBad] =
      .error (.template "missing_field") := by
  refine ⟨template_error_propagation.1 numSearch okC rowT mBad
    ⟨"missing_field", by decide, by decide⟩, ?_⟩
  exact template_error_propagation.2.2.1 numSearch (fun _ => okC) rowT mBad []
    (.template "missing_field") (by decide)

/-- C3: the dict `_apply_metric` emits has no timestamp entry, yet the CSV
writer subscripts `score["timestamp"]` for the ninth column of every row —
so persisting any emitted record raises `KeyError` and writes nothing,
against the claim that each record carries a creation timestamp persisted
in the fixed column order. -/
theorem timestamp_column_key_error :
    (∀ r : ScoreDict, csv_row_of_score (recordToDict r) = .error "timestamp") ∧
    (∀ (search : SearchFn) (chatO : ChatFn) (row : Row) (m : MetricSpec) (r : ScoreDict),
      apply_metric search chatO row m = .ok r →
      write_scores_to_csv [r] = .error "timestamp") := by
  have hrow : ∀ r : ScoreDict, csv_row_of_score (recordToDict r) = .error "timestamp" :=
    fun r => rfl
  exact ⟨hrow, fun search chatO row m r _ => by
    simp only [write_scores_to_csv, hrow r]⟩

/-- C3 witness: the writer theorem applied to the record the pipeline
actually emits on the concrete fixtures. -/
theorem timestamp_column_key_error_witness :
    ∃ r, apply_metric numSearch okC rowT mT = .ok r ∧
      write_scores_to_csv [r] = .error "timestamp" :=
  ⟨_, rfl, timestamp_column_key_error.2 numSearch okC rowT mT _ rfl⟩

/-- C7 counterexample: a spec whose parser directive has an unsupported
form (`magic`) is not dropped at load time — it is registered and stored in
the Runner's metric list, against the claim's invariant. -/
theorem unsupported_parser_registered_cex :
    load_registry [⟨"magic.yaml", .valid badParserSpec⟩] = [badParserSpec] ∧
    (runnerInit "scores.csv" [⟨"magic.yaml", .valid badParserSpec⟩]).metrics =
      [badParserSpec] ∧
    strStartsWith badParserSpec.parser "regex:" = false :=
  ⟨by decide, by decide, by decide⟩

/-- C7 amended: a malformed or empty registry file is skipped without
affecting the other files of the directory, but a spec with an unsupported
parser directive is NOT dropped — it is registered, reaches the Runner, and
only fails later, at every parse, with `ParseError`. -/
theorem registry_load_behavior :
    (∀ (fs1 fs2 : List RegFile) (n : String),
      load_registry (fs1 ++ ⟨n, .malformedFile⟩ :: fs2) = load_registry (fs1 ++ fs2)) ∧
    (∀ (fs1 fs2 : List RegFile) (n : String),
      load_registry (fs1 ++ ⟨n, .emptyFile⟩ :: fs2) = load_registry (fs1 ++ fs2)) ∧
    (∀ (n : String) (m : MetricSpec) (fs : List RegFile), isYamlName n = true →
      load_registry (⟨n, .valid m⟩ :: fs) = m :: load_registry fs) ∧
    (∀ (files : List RegFile) (csv : String),
      (runnerInit csv files).metrics = load_registry files) ∧
    (∀ (search : SearchFn) (parser text : String), strStartsWith parser "regex:" = false →
      parse_score search parser text = .error .unsupported) := by
  refine ⟨fun fs1 fs2 n => load_registry_entry_ignored ?_,
    fun fs1 fs2 n => load_registry_entry_ignored ?_,
    fun n m fs hn => load_registry_valid_head hn,
    fun files csv => rfl,
    fun search parser text h => parse_score_unsupported h⟩
  · intro m hm
    exact FileData.noConfusion hm
  · intro m hm
    exact FileData.noConfusion hm

/-- C7 witness: the load behavior applied to a concrete directory with a
malformed file between two good ones, and the parse failure of the
registered unsupported directive. -/
theorem registry_load_behavior_witness :
    load_registry
      [⟨"a.yaml", .valid mT⟩, ⟨"broken.yaml", .malformedFile⟩,
       ⟨"b.yaml", .valid badParserSpec⟩] = [mT, badParserSpec] ∧
    parse_score numSearch "magic" "Score: 8" = .error .unsupported := by
  constructor
  · have h := registry_load_behavior.1 [⟨"a.yaml", .valid mT⟩]
      [⟨"b.yaml", .valid badParserSpec⟩] "broken.yaml"
    rw [show ([⟨"a.yaml", .valid mT⟩, ⟨"broken.yaml", .malformedFile⟩,
        ⟨"b.yaml", .valid badParserSpec⟩] : List RegFile) =
      [⟨"a.yaml", .valid mT⟩] ++ ⟨"broken.yaml", .malformedFile⟩ ::
        [⟨"b.yaml", .valid badParserSpec⟩] from rfl, h]
    decide
  · exact registry_load_behavior.2.2.2.2 numSearch "magic" "Score: 8" (by decide)

end JudgeFlow
